import Mathlib

/-!
# The topology controller of the Heron topology master

A shallow embedding of `heron/tmaster/src/cpp/manager/tcontroller.cpp`:
the two HTTP handlers `HandleActivateRequest` and `HandleDeActivateRequest`
of `TController` and their completion callbacks.

The handlers are imperative: they log, send replies through the HTTP
server, release the request and call into the topology master.  Each of
these effects is a state transformer on a `World`; a handler is the
sequence of the source's statements in the monad `M`.  A dereference of
the pointer returned by `getTopology()` fails (`none`) on a null pointer,
so that a handler returning `some` has run to its end.
-/

namespace TController

/-! ## Data model -/

/-- Modelled from the spec: the enumeration `proto::api::TopologyState` is declared
outside this file.  The lifecycle state is drawn from
UNKNOWN/UNINITIALIZED, RUNNING, PAUSED, or any other value. -/
inductive TopologyState where
  | UNKNOWN
  | RUNNING
  | PAUSED
  | other (tag : Nat)
  deriving DecidableEq, Repr

/-- Modelled from the spec: the enumeration `proto::system::StatusCode` is declared
outside this file.  A transition outcome is `OK` or a failure code. -/
inductive StatusCode where
  | OK
  | failure (code : Nat)
  deriving DecidableEq, Repr

/-- The topology object behind `tmaster_->getTopology()`: the accessors
`id()` and `state()` used by the controller. -/
structure Topology where
  id : String
  state : TopologyState
  deriving DecidableEq, Repr

/-- An `IncomingHTTPRequest`: `handle` stands for the identity of the heap
object, `query` for the key/value pairs of the request, and the remote
host and port for the peer. -/
structure IncomingHTTPRequest where
  handle : Nat
  query : List (String × String)
  remoteHost : String
  remotePort : Nat
  deriving DecidableEq, Repr

/-- Modelled from the spec: `IncomingHTTPRequest::GetValue` is defined outside this
file.  It returns the value stored under the key, and the empty string
when the key is missing. -/
def IncomingHTTPRequest.GetValue (request : IncomingHTTPRequest) (key : String) : String :=
  match request.query.lookup key with
  | some v => v
  | none => ""

def IncomingHTTPRequest.GetRemoteHost (request : IncomingHTTPRequest) : String :=
  request.remoteHost

def IncomingHTTPRequest.GetRemotePort (request : IncomingHTTPRequest) : Nat :=
  request.remotePort

/-- Modelled from the spec: `OutgoingHTTPResponse` is defined outside this file.  A
response is created for a request with an empty body. -/
structure OutgoingHTTPResponse where
  request : IncomingHTTPRequest
  body : String
  deriving DecidableEq, Repr

/-- The constructor call `new OutgoingHTTPResponse(request)`. -/
def OutgoingHTTPResponse.new (request : IncomingHTTPRequest) : OutgoingHTTPResponse :=
  { request := request, body := "" }

/-- The call `response->AddResponse(s)`: the text is added to the body. -/
def OutgoingHTTPResponse.AddResponse (response : OutgoingHTTPResponse) (s : String) :
    OutgoingHTTPResponse :=
  { response with body := response.body ++ s }

/-- The closures handed to the topology master.  The lambda
`[request, this] (status) { this->HandleActivateRequestDone(request, status); }`
captures the request; so does its twin for deactivation. -/
inductive Continuation where
  | activateDone (request : IncomingHTTPRequest)
  | deactivateDone (request : IncomingHTTPRequest)
  deriving DecidableEq, Repr

/-- The request a continuation closes over. -/
def Continuation.request : Continuation → IncomingHTTPRequest
  | .activateDone r => r
  | .deactivateDone r => r

/-- The observable actions of the controller on its collaborators: the
HTTP server, the request object and the topology master. -/
inductive Event where
  | SendErrorReply (request : IncomingHTTPRequest) (code : Nat)
  | SendReply (request : IncomingHTTPRequest) (code : Nat) (response : OutgoingHTTPResponse)
  | Delete (request : IncomingHTTPRequest)
  | ActivateTopology (cb : Continuation)
  | DeActivateTopology (cb : Continuation)
  deriving DecidableEq, Repr

inductive Severity where
  | INFO
  | ERROR
  deriving DecidableEq, Repr

structure LogLine where
  severity : Severity
  text : String
  deriving DecidableEq, Repr

/-- The state a handler runs in: the snapshot the master currently
exposes through `getTopology()` (`none` for `NULL`), the log, and the
actions taken so far, oldest first. -/
structure World where
  topology : Option Topology
  log : List LogLine
  trace : List Event
  deriving DecidableEq, Repr

/-- Statements of the source: state transformers that may fail. -/
abbrev M := StateT World Option

/-! ## Primitive statements -/

def LOG (severity : Severity) (text : String) : M Unit :=
  modify fun w => { w with log := w.log ++ [{ severity := severity, text := text }] }

def emit (e : Event) : M Unit :=
  modify fun w => { w with trace := w.trace ++ [e] }

/-- The call `http_server_->SendErrorReply(request, code)`. -/
def SendErrorReply (request : IncomingHTTPRequest) (code : Nat) : M Unit :=
  emit (.SendErrorReply request code)

/-- The call `http_server_->SendReply(request, code, response)`. -/
def SendReply (request : IncomingHTTPRequest) (code : Nat)
    (response : OutgoingHTTPResponse) : M Unit :=
  emit (.SendReply request code response)

/-- The statement `delete request`. -/
def delete (request : IncomingHTTPRequest) : M Unit :=
  emit (.Delete request)

/-- The call `tmaster_->getTopology()`: a read of the current snapshot. -/
def getTopology : M (Option Topology) := do
  return (← get).topology

/-- The dereference `p->`: undefined on a null pointer. -/
def deref (p : Option Topology) : M Topology :=
  match p with
  | some t => pure t
  | none => failure

/-- The call `tmaster_->ActivateTopology(cb)`. -/
def ActivateTopology (cb : Continuation) : M Unit :=
  emit (.ActivateTopology cb)

/-- The call `tmaster_->DeActivateTopology(cb)`. -/
def DeActivateTopology (cb : Continuation) : M Unit :=
  emit (.DeActivateTopology cb)

/-- The text `host:port` written by the entry log line. -/
def peerText (request : IncomingHTTPRequest) : String :=
  request.GetRemoteHost ++ ":" ++ toString request.GetRemotePort

/-- The text of a status code as streamed into a log line. -/
def StatusCode.text : StatusCode → String
  | .OK => "OK"
  | .failure c => toString c

/-! ## The handlers -/

def HandleActivateRequest (request : IncomingHTTPRequest) : M Unit := do
  LOG .INFO ("Got a activate topology request from " ++ peerText request)
  let id := request.GetValue "topologyid"
  if id = "" then
    LOG .ERROR "topologyid not specified in the request"
    SendErrorReply request 400
    delete request
  else if (← getTopology) = none then
    LOG .ERROR "Tmaster still not initialized"
    SendErrorReply request 500
    delete request
  else if id ≠ (← deref (← getTopology)).id then
    LOG .ERROR "Topology id does not match"
    SendErrorReply request 400
    delete request
  else if (← deref (← getTopology)).state ≠ TopologyState.PAUSED then
    LOG .ERROR "Topology not in paused state"
    SendErrorReply request 400
    delete request
  else
    let cb := Continuation.activateDone request
    ActivateTopology cb

def HandleActivateRequestDone (request : IncomingHTTPRequest) (_status : StatusCode) :
    M Unit := do
  if _status ≠ StatusCode.OK then
    LOG .ERROR ("Unable to Activate topology " ++ _status.text)
    SendErrorReply request 500
  else
    let s := "Topology successfully activated"
    LOG .INFO s
    let response := OutgoingHTTPResponse.new request
    let response := response.AddResponse s
    SendReply request 200 response
  delete request

def HandleDeActivateRequest (request : IncomingHTTPRequest) : M Unit := do
  LOG .INFO ("Got a deactivate topology request from " ++ peerText request)
  let id := request.GetValue "topologyid"
  if id = "" then
    LOG .ERROR "Request does not contain topology id"
    SendErrorReply request 400
    delete request
  else if (← getTopology) = none then
    LOG .ERROR "Tmaster still not initialized"
    SendErrorReply request 500
    delete request
  else if id ≠ (← deref (← getTopology)).id then
    LOG .ERROR "Topology id does not match"
    SendErrorReply request 400
    delete request
  else if (← deref (← getTopology)).state ≠ TopologyState.RUNNING then
    LOG .ERROR "Topology not in running state"
    SendErrorReply request 400
    delete request
  else
    let cb := Continuation.deactivateDone request
    DeActivateTopology cb

def HandleDeActivateRequestDone (request : IncomingHTTPRequest) (_status : StatusCode) :
    M Unit := do
  if _status ≠ StatusCode.OK then
    LOG .ERROR ("Unable to DeActivate topology " ++ _status.text)
    SendErrorReply request 500
  else
    let s := "Topology successfully deactivated"
    LOG .INFO s
    let response := OutgoingHTTPResponse.new request
    let response := response.AddResponse s
    SendReply request 200 response
  delete request

/-- Running a closure: the body of the lambda it stands for. -/
def Continuation.call (cb : Continuation) (status : StatusCode) : M Unit :=
  match cb with
  | .activateDone request => HandleActivateRequestDone request status
  | .deactivateDone request => HandleDeActivateRequestDone request status

/-- The two routes installed by the constructor of `TController`. -/
inductive Endpoint where
  | activate
  | deactivate
  deriving DecidableEq, Repr

/-- The path given to `InstallCallBack` for a route. -/
def Endpoint.path : Endpoint → String
  | .activate => "/activate"
  | .deactivate => "/deactivate"

/-- The callback installed for a route: `cbActivate` and `cbDeActivate`. -/
def Endpoint.handler : Endpoint → IncomingHTTPRequest → M Unit
  | .activate => HandleActivateRequest
  | .deactivate => HandleDeActivateRequest

/-! ## Observations on a run -/

/-- What a client receives: a status and, for `SendReply`, a body. -/
structure Reply where
  status : Nat
  body : Option String
  deriving DecidableEq, Repr

/-- The reply an action sends, if it sends one. -/
def Event.reply : Event → Option Reply
  | .SendErrorReply _ code => some { status := code, body := none }
  | .SendReply _ code response => some { status := code, body := some response.body }
  | _ => none

/-- The continuation of a call into the master, if the action is one. -/
def Event.continuation : Event → Option Continuation
  | .ActivateTopology cb => some cb
  | .DeActivateTopology cb => some cb
  | _ => none

/-- The request an action releases, if it is a `delete`. -/
def Event.released : Event → Option IncomingHTTPRequest
  | .Delete request => some request
  | _ => none

/-- The replies sent in a list of actions, in order. -/
def replies (evs : List Event) : List Reply :=
  evs.filterMap Event.reply

/-- The calls of `ActivateTopology` and `DeActivateTopology` in a list of
actions, in order. -/
def ownerCalls (evs : List Event) : List Event :=
  evs.filter fun e => e.continuation.isSome

/-- The requests released in a list of actions, in order. -/
def releases (evs : List Event) : List IncomingHTTPRequest :=
  evs.filterMap Event.released

/-- The actions a statement adds to the trace when it runs in `w`;
`none` when it does not run to its end. -/
def actions (m : M Unit) (w : World) : Option (List Event) :=
  (m.run w).map fun p => p.2.trace.drop w.trace.length

/-- The world a statement leaves when it runs in `w`. -/
def after (m : M Unit) (w : World) : Option World :=
  (m.run w).map fun p => p.2

/-- The state a route requires of the topology: the constant of the
fourth check of its handler. -/
def Endpoint.requiredState : Endpoint → TopologyState
  | .activate => .PAUSED
  | .deactivate => .RUNNING

/-- The call a route makes into the master once its checks pass. -/
def Endpoint.dispatch : Endpoint → IncomingHTTPRequest → Event
  | .activate, request => .ActivateTopology (.activateDone request)
  | .deactivate, request => .DeActivateTopology (.deactivateDone request)

/-- The first line a handler logs. -/
def Endpoint.entryLine : Endpoint → IncomingHTTPRequest → LogLine
  | .activate, request =>
      ⟨.INFO, "Got a activate topology request from " ++ peerText request⟩
  | .deactivate, request =>
      ⟨.INFO, "Got a deactivate topology request from " ++ peerText request⟩

/-- The action an event addresses to a request as its reply. -/
def Event.repliedTo : Event → Option IncomingHTTPRequest
  | .SendErrorReply request _ => some request
  | .SendReply request _ _ => some request
  | _ => none

/-- The outcome of the four checks of a handler, read off its `if`
chain: the status of the rejection, or `none` when the handler goes on to
call the master. -/
def verdict (ep : Endpoint) (id : String) (snapshot : Option Topology) : Option Nat :=
  if id = "" then some 400
  else match snapshot with
    | none => some 500
    | some t =>
      if id ≠ t.id then some 400
      else if t.state ≠ ep.requiredState then some 400
      else none

/-- The world a handler leaves after a synchronous rejection. -/
def rejected (request : IncomingHTTPRequest) (entry reason : String) (code : Nat)
    (w : World) : World :=
  { w with
    log := w.log ++ [⟨.INFO, entry⟩, ⟨.ERROR, reason⟩],
    trace := w.trace ++ [.SendErrorReply request code, .Delete request] }

/-- The world a handler leaves after handing its continuation to the master. -/
def dispatched (ep : Endpoint) (request : IncomingHTTPRequest) (w : World) : World :=
  { w with
    log := w.log ++ [ep.entryLine request],
    trace := w.trace ++ [ep.dispatch request] }

/-- Modelled from the spec: the master's `ActivateTopology` and `DeActivateTopology`
are defined outside this file.  The outcome of a transition is delivered
exactly once through the continuation the controller supplied: each
continuation of the list is called once with the outcome. -/
def deliver (outcome : StatusCode) : List Continuation → M Unit
  | [] => pure ()
  | cb :: rest => do
    cb.call outcome
    deliver outcome rest

/-- The actions of one request: the handler runs in `w`; when it called
the master, the continuation is called once with `outcome` in the world
`later` the master has reached by then. -/
def requestTrace (ep : Endpoint) (request : IncomingHTTPRequest) (outcome : StatusCode)
    (w later : World) : Option (List Event) :=
  match actions (ep.handler request) w with
  | none => none
  | some evs =>
    match actions (deliver outcome (evs.filterMap Event.continuation)) later with
    | none => none
    | some evs2 => some (evs ++ evs2)

/-! ## The order of the checks as the specification words it -/

/-- One precondition of a handler: whether it holds, and the status of
the error reply when it does not. -/
structure Check where
  holds : Bool
  status : Nat
  deriving DecidableEq, Repr

/-- The four preconditions in the order of the specification:
(1) `topologyid` non-empty, else 400; (2) snapshot present, else 500;
(3) snapshot id equal to `topologyid`, else 400; (4) snapshot in the
required state, else 400. -/
def specChecks (required : TopologyState) (id : String) (snapshot : Option Topology) :
    List Check :=
  [ { holds := decide (id ≠ ""), status := 400 },
    { holds := snapshot.isSome, status := 500 },
    { holds := decide (snapshot.map Topology.id = some id), status := 400 },
    { holds := decide (snapshot.map Topology.state = some required), status := 400 } ]

/-- The status of the first check that fails, `none` when all hold. -/
def specFirstFailure (required : TopologyState) (id : String)
    (snapshot : Option Topology) : Option Nat :=
  ((specChecks required id snapshot).find? fun c => !c.holds).map Check.status

/-- The confirmation text of the completion a continuation stands for. -/
def Continuation.confirmation : Continuation → String
  | .activateDone _ => "Topology successfully activated"
  | .deactivateDone _ => "Topology successfully deactivated"

/-- The actions of a completion: the reply for the outcome, then the
release of the request. -/
def completion (cb : Continuation) (outcome : StatusCode) : List Event :=
  if outcome ≠ .OK then
    [.SendErrorReply cb.request 500, .Delete cb.request]
  else
    [.SendReply cb.request 200 ⟨cb.request, cb.confirmation⟩, .Delete cb.request]

/-! ## Sample inputs -/

/-- The request `?topologyid=topo-1`. -/
def topo1Request : IncomingHTTPRequest :=
  { handle := 1, query := [("topologyid", "topo-1")], remoteHost := "10.0.0.7", remotePort := 4711 }

/-- A request without a `topologyid`. -/
def bareRequest : IncomingHTTPRequest :=
  { handle := 2, query := [], remoteHost := "10.0.0.7", remotePort := 4711 }

/-- The request `?topologyid=`: the key is there, its value is empty. -/
def emptyIdRequest : IncomingHTTPRequest :=
  { handle := 3, query := [("topologyid", "")], remoteHost := "10.0.0.7", remotePort := 4711 }

/-- The request `?topologyid=topo-2`. -/
def topo2Request : IncomingHTTPRequest :=
  { handle := 4, query := [("topologyid", "topo-2")], remoteHost := "10.0.0.7", remotePort := 4711 }

/-- A world whose master has no topology yet. -/
def absentWorld : World :=
  { topology := none, log := [], trace := [] }

/-- A world whose master holds `topo-1` in the given state. -/
def topo1World (state : TopologyState) : World :=
  { topology := some { id := "topo-1", state := state }, log := [], trace := [] }

/-- A world whose master holds a topology with the empty id. -/
def emptyIdWorld (state : TopologyState) : World :=
  { topology := some { id := "", state := state }, log := [], trace := [] }

/-- A second request for `topo-1`, from another peer. -/
def topo1RequestElsewhere : IncomingHTTPRequest :=
  { handle := 5, query := [("topologyid", "topo-1")], remoteHost := "192.168.3.9",
    remotePort := 80 }

/-! ## The four operations and the shape of a reply -/

/-- The four operations of the controller that can send a reply. -/
inductive Operation where
  | activate (request : IncomingHTTPRequest)
  | activateDone (request : IncomingHTTPRequest) (status : StatusCode)
  | deactivate (request : IncomingHTTPRequest)
  | deactivateDone (request : IncomingHTTPRequest) (status : StatusCode)
  deriving DecidableEq, Repr

/-- The member function an operation stands for. -/
def Operation.run : Operation → M Unit
  | .activate request => HandleActivateRequest request
  | .activateDone request status => HandleActivateRequestDone request status
  | .deactivate request => HandleDeActivateRequest request
  | .deactivateDone request status => HandleDeActivateRequestDone request status

/-- A success reply: status 200 and one of the two confirmation texts. -/
def Reply.isSuccess (r : Reply) : Prop :=
  r.status = 200 ∧
    (r.body = some "Topology successfully activated" ∨
     r.body = some "Topology successfully deactivated")

/-- An error reply: status 400 or 500 and no body. -/
def Reply.isError (r : Reply) : Prop :=
  (r.status = 400 ∨ r.status = 500) ∧ r.body = none

instance (r : Reply) : Decidable r.isSuccess := by
  unfold Reply.isSuccess; infer_instance

instance (r : Reply) : Decidable r.isError := by
  unfold Reply.isError; infer_instance

/-! ## The handlers over a master that changes its snapshot -/

/-- Modelled from the spec: `TMaster` is defined outside this file.  The master is
the only actor that mutates the topology state; what each of its
transition methods does to the snapshot while it is called is left open:
any function of the snapshot. -/
structure Master where
  ActivateTopology : Option Topology → Option Topology
  DeActivateTopology : Option Topology → Option Topology

/-- What the transition method of a route does to the snapshot. -/
def Master.transition (tmaster_ : Master) : Endpoint → Option Topology → Option Topology
  | .activate => tmaster_.ActivateTopology
  | .deactivate => tmaster_.DeActivateTopology

/-- One call of `getTopology()`: the snapshot it returned and the number
of actions taken before it. -/
structure Read where
  seen : Option Topology
  position : Nat
  deriving DecidableEq, Repr

/-- A world together with the record of the reads of the snapshot. -/
structure Probe where
  world : World
  reads : List Read
  deriving DecidableEq, Repr

/-- Statements over a probe. -/
abbrev P := StateT Probe Option

namespace Observed

/-- A statement of `M` run on the world of the probe. -/
def onWorld {α : Type} (m : M α) : P α := fun p =>
  match m.run p.world with
  | none => none
  | some (a, w1) => some (a, { p with world := w1 })

def LOG (severity : Severity) (text : String) : P Unit :=
  onWorld (TController.LOG severity text)

def SendErrorReply (request : IncomingHTTPRequest) (code : Nat) : P Unit :=
  onWorld (TController.SendErrorReply request code)

def delete (request : IncomingHTTPRequest) : P Unit :=
  onWorld (TController.delete request)

def deref (p : Option Topology) : P Topology :=
  onWorld (TController.deref p)

/-- The call `tmaster_->getTopology()`, recorded. -/
def getTopology : P (Option Topology) := do
  let snapshot ← onWorld TController.getTopology
  modify fun p =>
    { p with reads := p.reads ++ [{ seen := snapshot, position := p.world.trace.length }] }
  return snapshot

/-- The call `tmaster_->ActivateTopology(cb)`: the call is recorded and the
master does to its snapshot what it does. -/
def ActivateTopology (tmaster_ : Master) (cb : Continuation) : P Unit := do
  onWorld (TController.ActivateTopology cb)
  modify fun p =>
    { p with world := { p.world with topology := tmaster_.ActivateTopology p.world.topology } }

def DeActivateTopology (tmaster_ : Master) (cb : Continuation) : P Unit := do
  onWorld (TController.DeActivateTopology cb)
  modify fun p =>
    { p with world := { p.world with topology := tmaster_.DeActivateTopology p.world.topology } }

def HandleActivateRequest (tmaster_ : Master) (request : IncomingHTTPRequest) : P Unit := do
  LOG .INFO ("Got a activate topology request from " ++ peerText request)
  let id := request.GetValue "topologyid"
  if id = "" then
    LOG .ERROR "topologyid not specified in the request"
    SendErrorReply request 400
    delete request
  else if (← getTopology) = none then
    LOG .ERROR "Tmaster still not initialized"
    SendErrorReply request 500
    delete request
  else if id ≠ (← deref (← getTopology)).id then
    LOG .ERROR "Topology id does not match"
    SendErrorReply request 400
    delete request
  else if (← deref (← getTopology)).state ≠ TopologyState.PAUSED then
    LOG .ERROR "Topology not in paused state"
    SendErrorReply request 400
    delete request
  else
    let cb := Continuation.activateDone request
    ActivateTopology tmaster_ cb

def HandleDeActivateRequest (tmaster_ : Master) (request : IncomingHTTPRequest) : P Unit := do
  LOG .INFO ("Got a deactivate topology request from " ++ peerText request)
  let id := request.GetValue "topologyid"
  if id = "" then
    LOG .ERROR "Request does not contain topology id"
    SendErrorReply request 400
    delete request
  else if (← getTopology) = none then
    LOG .ERROR "Tmaster still not initialized"
    SendErrorReply request 500
    delete request
  else if id ≠ (← deref (← getTopology)).id then
    LOG .ERROR "Topology id does not match"
    SendErrorReply request 400
    delete request
  else if (← deref (← getTopology)).state ≠ TopologyState.RUNNING then
    LOG .ERROR "Topology not in running state"
    SendErrorReply request 400
    delete request
  else
    let cb := Continuation.deactivateDone request
    DeActivateTopology tmaster_ cb

/-- The callback installed for a route, over the probe. -/
def handler (tmaster_ : Master) : Endpoint → IncomingHTTPRequest → P Unit
  | .activate => HandleActivateRequest tmaster_
  | .deactivate => HandleDeActivateRequest tmaster_

end Observed

/-- A master that resumes a paused topology on `ActivateTopology` and
drops it on `DeActivateTopology`. -/
def sampleMaster : Master :=
  { ActivateTopology := fun s => s.map fun t => { t with state := .RUNNING },
    DeActivateTopology := fun _ => none }

/-! ## The exchange of activation and deactivation -/

/-- PAUSED and RUNNING exchanged, every other state kept. -/
def TopologyState.exchange : TopologyState → TopologyState
  | .PAUSED => .RUNNING
  | .RUNNING => .PAUSED
  | s => s

/-- A snapshot with PAUSED and RUNNING exchanged. -/
def Topology.exchange (t : Topology) : Topology :=
  { t with state := t.state.exchange }

/-- A world whose snapshot, when present, has PAUSED and RUNNING exchanged. -/
def World.exchange (w : World) : World :=
  { w with topology := w.topology.map Topology.exchange }

/-- The deactivation closure in place of the activation closure. -/
def Continuation.toDeactivate : Continuation → Continuation
  | .activateDone request => .deactivateDone request
  | cb => cb

/-- The deactivation text in place of the activation text. -/
def toDeactivateBody (body : String) : String :=
  if body = "Topology successfully activated" then "Topology successfully deactivated"
  else body

/-- An action of the activation path read on the deactivation path:
`ActivateTopology` becomes `DeActivateTopology`, and the confirmation
body is replaced. -/
def Event.toDeactivate : Event → Event
  | .ActivateTopology cb => .DeActivateTopology cb.toDeactivate
  | .SendReply request code response =>
      .SendReply request code { response with body := toDeactivateBody response.body }
  | e => e

/-- The route whose transition method an action calls, if it calls one. -/
def Event.transition : Event → Option Endpoint
  | .ActivateTopology _ => some .activate
  | .DeActivateTopology _ => some .deactivate
  | _ => none

/-- The transition methods called in a list of actions, in order. -/
def transitions (evs : List Event) : List Endpoint :=
  evs.filterMap Event.transition

/-- All four preconditions of a route hold for a `topologyid` and a
snapshot: non-empty id, snapshot present, ids equal, required state. -/
def Endpoint.preconditions (ep : Endpoint) (id : String) (snapshot : Option Topology) :
    Prop :=
  id ≠ "" ∧ ∃ t, snapshot = some t ∧ t.id = id ∧ t.state = ep.requiredState

/-! ## The handlers, statement by statement -/

theorem HandleActivateRequest_run (request : IncomingHTTPRequest) (w : World) :
    (HandleActivateRequest request).run w = some ((),
      let entry := "Got a activate topology request from " ++ peerText request
      if request.GetValue "topologyid" = "" then
        rejected request entry "topologyid not specified in the request" 400 w
      else match w.topology with
        | none => rejected request entry "Tmaster still not initialized" 500 w
        | some t =>
          if request.GetValue "topologyid" ≠ t.id then
            rejected request entry "Topology id does not match" 400 w
          else if t.state ≠ .PAUSED then
            rejected request entry "Topology not in paused state" 400 w
          else dispatched .activate request w) := by
  by_cases h : request.GetValue "topologyid" = ""
  · simp [HandleActivateRequest, h, LOG, SendErrorReply, delete, emit, StateT.run, bind,
      StateT.bind, modify, modifyGet, MonadStateOf.modifyGet, StateT.modifyGet, pure, rejected]
  · cases hw : w.topology with
    | none =>
      simp [HandleActivateRequest, h, hw, LOG, SendErrorReply, delete, emit, StateT.run, bind,
        StateT.bind, modify, modifyGet, MonadStateOf.modifyGet, StateT.modifyGet, pure,
        rejected, getTopology, get, getThe, MonadStateOf.get, StateT.get, StateT.pure]
    | some t =>
      by_cases h2 : request.GetValue "topologyid" = t.id
      · by_cases h3 : t.state = .PAUSED <;>
        simp [HandleActivateRequest, h, hw, ← h2, h3, LOG, SendErrorReply, delete, emit,
          StateT.run, bind, StateT.bind, modify, modifyGet, MonadStateOf.modifyGet,
          StateT.modifyGet, pure, rejected, dispatched, Endpoint.entryLine, Endpoint.dispatch,
          getTopology, get, getThe, MonadStateOf.get, StateT.get, StateT.pure, deref,
          ActivateTopology]
      · simp [HandleActivateRequest, h, hw, h2, LOG, SendErrorReply, delete, emit, StateT.run,
          bind, StateT.bind, modify, modifyGet, MonadStateOf.modifyGet, StateT.modifyGet, pure,
          rejected, getTopology, get, getThe, MonadStateOf.get, StateT.get, StateT.pure, deref]

theorem HandleDeActivateRequest_run (request : IncomingHTTPRequest) (w : World) :
    (HandleDeActivateRequest request).run w = some ((),
      let entry := "Got a deactivate topology request from " ++ peerText request
      if request.GetValue "topologyid" = "" then
        rejected request entry "Request does not contain topology id" 400 w
      else match w.topology with
        | none => rejected request entry "Tmaster still not initialized" 500 w
        | some t =>
          if request.GetValue "topologyid" ≠ t.id then
            rejected request entry "Topology id does not match" 400 w
          else if t.state ≠ .RUNNING then
            rejected request entry "Topology not in running state" 400 w
          else dispatched .deactivate request w) := by
  by_cases h : request.GetValue "topologyid" = ""
  · simp [HandleDeActivateRequest, h, LOG, SendErrorReply, delete, emit, StateT.run, bind,
      StateT.bind, modify, modifyGet, MonadStateOf.modifyGet, StateT.modifyGet, pure, rejected]
  · cases hw : w.topology with
    | none =>
      simp [HandleDeActivateRequest, h, hw, LOG, SendErrorReply, delete, emit, StateT.run, bind,
        StateT.bind, modify, modifyGet, MonadStateOf.modifyGet, StateT.modifyGet, pure,
        rejected, getTopology, get, getThe, MonadStateOf.get, StateT.get, StateT.pure]
    | some t =>
      by_cases h2 : request.GetValue "topologyid" = t.id
      · by_cases h3 : t.state = .RUNNING <;>
        simp [HandleDeActivateRequest, h, hw, ← h2, h3, LOG, SendErrorReply, delete, emit,
          StateT.run, bind, StateT.bind, modify, modifyGet, MonadStateOf.modifyGet,
          StateT.modifyGet, pure, rejected, dispatched, Endpoint.entryLine, Endpoint.dispatch,
          getTopology, get, getThe, MonadStateOf.get, StateT.get, StateT.pure, deref,
          DeActivateTopology]
      · simp [HandleDeActivateRequest, h, hw, h2, LOG, SendErrorReply, delete, emit, StateT.run,
          bind, StateT.bind, modify, modifyGet, MonadStateOf.modifyGet, StateT.modifyGet, pure,
          rejected, getTopology, get, getThe, MonadStateOf.get, StateT.get, StateT.pure, deref]

theorem HandleActivateRequestDone_run (request : IncomingHTTPRequest) (status : StatusCode)
    (w : World) :
    (HandleActivateRequestDone request status).run w = some ((),
      if status ≠ .OK then
        { w with
          log := w.log ++ [⟨.ERROR, "Unable to Activate topology " ++ status.text⟩],
          trace := w.trace ++ [.SendErrorReply request 500, .Delete request] }
      else
        { w with
          log := w.log ++ [⟨.INFO, "Topology successfully activated"⟩],
          trace := w.trace ++
            [.SendReply request 200 ⟨request, "Topology successfully activated"⟩,
             .Delete request] }) := by
  by_cases h : status = .OK <;>
  simp [HandleActivateRequestDone, h, LOG, SendErrorReply, SendReply, delete, emit,
    StateT.run, bind, StateT.bind, modify, modifyGet, MonadStateOf.modifyGet,
    StateT.modifyGet, pure, OutgoingHTTPResponse.new, OutgoingHTTPResponse.AddResponse]

theorem HandleDeActivateRequestDone_run (request : IncomingHTTPRequest) (status : StatusCode)
    (w : World) :
    (HandleDeActivateRequestDone request status).run w = some ((),
      if status ≠ .OK then
        { w with
          log := w.log ++ [⟨.ERROR, "Unable to DeActivate topology " ++ status.text⟩],
          trace := w.trace ++ [.SendErrorReply request 500, .Delete request] }
      else
        { w with
          log := w.log ++ [⟨.INFO, "Topology successfully deactivated"⟩],
          trace := w.trace ++
            [.SendReply request 200 ⟨request, "Topology successfully deactivated"⟩,
             .Delete request] }) := by
  by_cases h : status = .OK <;>
  simp [HandleDeActivateRequestDone, h, LOG, SendErrorReply, SendReply, delete, emit,
    StateT.run, bind, StateT.bind, modify, modifyGet, MonadStateOf.modifyGet,
    StateT.modifyGet, pure, OutgoingHTTPResponse.new, OutgoingHTTPResponse.AddResponse]

/-! ## Consequences used by the theorems below -/

theorem actions_of_run {m : M Unit} {w w1 : World} {evs : List Event}
    (h : m.run w = some ((), w1)) (ht : w1.trace = w.trace ++ evs) :
    actions m w = some evs := by
  simp [actions, h, ht]

theorem handler_rejects (ep : Endpoint) (request : IncomingHTTPRequest) (w : World)
    (code : Nat) (h : verdict ep (request.GetValue "topologyid") w.topology = some code) :
    ∃ entry reason,
      (ep.handler request).run w = some ((), rejected request entry reason code w) := by
  cases ep
  · rw [Endpoint.handler, HandleActivateRequest_run]
    unfold verdict at h
    split_ifs at h with h1
    · cases h; exact ⟨_, _, by simp [h1]; rfl⟩
    · cases hw : w.topology with
      | none => rw [hw] at h; cases h; exact ⟨_, _, by simp [h1]; rfl⟩
      | some t =>
        rw [hw] at h
        simp only [Endpoint.requiredState] at h
        split_ifs at h with h2 h3
        · cases h; exact ⟨_, _, by simp [h1, h2]; rfl⟩
        · cases h; exact ⟨_, _, by simp [h1, h2, h3]; rfl⟩
  · rw [Endpoint.handler, HandleDeActivateRequest_run]
    unfold verdict at h
    split_ifs at h with h1
    · cases h; exact ⟨_, _, by simp [h1]; rfl⟩
    · cases hw : w.topology with
      | none => rw [hw] at h; cases h; exact ⟨_, _, by simp [h1]; rfl⟩
      | some t =>
        rw [hw] at h
        simp only [Endpoint.requiredState] at h
        split_ifs at h with h2 h3
        · cases h; exact ⟨_, _, by simp [h1, h2]; rfl⟩
        · cases h; exact ⟨_, _, by simp [h1, h2, h3]; rfl⟩

theorem handler_dispatches (ep : Endpoint) (request : IncomingHTTPRequest) (w : World)
    (h : verdict ep (request.GetValue "topologyid") w.topology = none) :
    (ep.handler request).run w = some ((), dispatched ep request w) := by
  cases ep
  · rw [Endpoint.handler, HandleActivateRequest_run]
    unfold verdict at h
    split_ifs at h with h1
    cases hw : w.topology with
    | none => rw [hw] at h; cases h
    | some t =>
      rw [hw] at h
      simp only [Endpoint.requiredState] at h
      split_ifs at h with h2 h3
      simp [h1, h2, h3]
  · rw [Endpoint.handler, HandleDeActivateRequest_run]
    unfold verdict at h
    split_ifs at h with h1
    cases hw : w.topology with
    | none => rw [hw] at h; cases h
    | some t =>
      rw [hw] at h
      simp only [Endpoint.requiredState] at h
      split_ifs at h with h2 h3
      simp [h1, h2, h3]

theorem handler_actions_rejected (ep : Endpoint) (request : IncomingHTTPRequest) (w : World)
    (code : Nat) (h : verdict ep (request.GetValue "topologyid") w.topology = some code) :
    actions (ep.handler request) w = some [.SendErrorReply request code, .Delete request] := by
  obtain ⟨entry, reason, hrun⟩ := handler_rejects ep request w code h
  exact actions_of_run hrun rfl

theorem handler_actions_dispatched (ep : Endpoint) (request : IncomingHTTPRequest)
    (w : World) (h : verdict ep (request.GetValue "topologyid") w.topology = none) :
    actions (ep.handler request) w = some [ep.dispatch request] :=
  actions_of_run (handler_dispatches ep request w h) rfl

theorem call_actions (cb : Continuation) (outcome : StatusCode) (later : World) :
    actions (cb.call outcome) later = some (completion cb outcome) := by
  cases cb with
  | activateDone request =>
    refine actions_of_run (HandleActivateRequestDone_run request outcome later) ?_
    by_cases h : outcome = .OK <;>
    simp [h, completion, Continuation.request, Continuation.confirmation]
  | deactivateDone request =>
    refine actions_of_run (HandleDeActivateRequestDone_run request outcome later) ?_
    by_cases h : outcome = .OK <;>
    simp [h, completion, Continuation.request, Continuation.confirmation]

theorem GetValue_eq_empty (request : IncomingHTTPRequest) (key : String)
    (h : request.query.lookup key = none ∨ request.query.lookup key = some "") :
    request.GetValue key = "" := by
  rcases h with h | h <;> simp [IncomingHTTPRequest.GetValue, h]

theorem deliver_single (cb : Continuation) (outcome : StatusCode) (later : World) :
    actions (deliver outcome [cb]) later = some (completion cb outcome) := by
  have h : deliver outcome [cb] = cb.call outcome := by
    simp [deliver]
  rw [h, call_actions]

theorem deliver_nil (outcome : StatusCode) (later : World) :
    actions (deliver outcome []) later = some [] := by
  simp [deliver, actions, StateT.run, pure, StateT.pure]

theorem dispatch_continuation (ep : Endpoint) (request : IncomingHTTPRequest) :
    ∃ cb, (ep.dispatch request).continuation = some cb ∧ cb.request = request := by
  cases ep
  · exact ⟨.activateDone request, rfl, rfl⟩
  · exact ⟨.deactivateDone request, rfl, rfl⟩

theorem completion_shape (cb : Continuation) (outcome : StatusCode) :
    ∃ e, completion cb outcome = [e, .Delete cb.request] ∧ e.repliedTo = some cb.request ∧
      e.reply.isSome = true ∧ e.released = none ∧ e.continuation = none := by
  by_cases h : outcome = .OK
  · exact ⟨.SendReply cb.request 200 ⟨cb.request, cb.confirmation⟩,
      by simp [completion, h], rfl, rfl, rfl, rfl⟩
  · exact ⟨.SendErrorReply cb.request 500, by simp [completion, h], rfl, rfl, rfl, rfl⟩

/-! ## The claims -/

/-- C1: a request to either endpoint whose `topologyid` is missing or
empty is answered with status 400, and neither `ActivateTopology` nor
`DeActivateTopology` is called, whatever the state of the master. -/
theorem C1_missing_topologyid_rejected (ep : Endpoint) (request : IncomingHTTPRequest)
    (w : World)
    (h : request.query.lookup "topologyid" = none ∨
         request.query.lookup "topologyid" = some "") :
    ∃ evs, actions (ep.handler request) w = some evs ∧
      replies evs = [⟨400, none⟩] ∧ ownerCalls evs = [] := by
  have hid := GetValue_eq_empty request "topologyid" h
  exact ⟨_, handler_actions_rejected ep request w 400 (by simp [verdict, hid]), rfl, rfl⟩

theorem C1_missing_topologyid_rejected_witness :
    (bareRequest.query.lookup "topologyid" = none ∨
      bareRequest.query.lookup "topologyid" = some "") ∧
    ∃ evs, actions (Endpoint.activate.handler bareRequest) (topo1World .PAUSED) = some evs ∧
      replies evs = [⟨400, none⟩] ∧ ownerCalls evs = [] :=
  ⟨Or.inl rfl,
   C1_missing_topologyid_rejected .activate bareRequest (topo1World .PAUSED) (Or.inl rfl)⟩

/-- C2, as stated, fails: with no snapshot and an empty `topologyid` the
reply of the deactivate handler is 400, not 500. -/
theorem C2_counterexample_empty_id_absent_snapshot :
    absentWorld.topology = none ∧
    actions (Endpoint.deactivate.handler emptyIdRequest) absentWorld =
      some [.SendErrorReply emptyIdRequest 400, .Delete emptyIdRequest] ∧
    ¬ ∃ evs, actions (Endpoint.deactivate.handler emptyIdRequest) absentWorld = some evs ∧
        replies evs = [⟨500, none⟩] ∧ ownerCalls evs = [] := by
  have hact : actions (Endpoint.deactivate.handler emptyIdRequest) absentWorld =
      some [.SendErrorReply emptyIdRequest 400, .Delete emptyIdRequest] :=
    handler_actions_rejected .deactivate emptyIdRequest absentWorld 400 (by decide)
  refine ⟨rfl, hact, ?_⟩
  rintro ⟨evs, h, hr, _⟩
  rw [hact] at h
  cases h
  revert hr
  decide

/-- C2, amended: while the snapshot is absent, no request to either
endpoint leads to a call of `ActivateTopology` or `DeActivateTopology`,
and every request with a non-empty `topologyid` is answered with 500. -/
theorem C2_absent_snapshot (ep : Endpoint) (request : IncomingHTTPRequest) (w : World)
    (hw : w.topology = none) :
    ∃ evs, actions (ep.handler request) w = some evs ∧ ownerCalls evs = [] ∧
      (request.GetValue "topologyid" ≠ "" → replies evs = [⟨500, none⟩]) := by
  by_cases hid : request.GetValue "topologyid" = ""
  · exact ⟨_, handler_actions_rejected ep request w 400 (by simp [verdict, hid]), rfl,
      fun hne => absurd hid hne⟩
  · exact ⟨_, handler_actions_rejected ep request w 500 (by simp [verdict, hid, hw]), rfl,
      fun _ => rfl⟩

theorem C2_absent_snapshot_witness :
    absentWorld.topology = none ∧
    ∃ evs, actions (Endpoint.deactivate.handler topo1Request) absentWorld = some evs ∧
      ownerCalls evs = [] ∧ replies evs = [⟨500, none⟩] :=
  ⟨rfl, by
    obtain ⟨evs, h1, h2, h3⟩ := C2_absent_snapshot .deactivate topo1Request absentWorld rfl
    exact ⟨evs, h1, h2, h3 (by decide)⟩⟩

/-- C3: a request to either endpoint whose `topologyid` differs from the
id of the present snapshot is answered with 400 and no transition method
of the master is called, whatever the state of the snapshot. -/
theorem C3_id_mismatch_rejected (ep : Endpoint) (request : IncomingHTTPRequest) (w : World)
    (t : Topology) (hw : w.topology = some t)
    (hne : request.GetValue "topologyid" ≠ t.id) :
    ∃ evs, actions (ep.handler request) w = some evs ∧
      replies evs = [⟨400, none⟩] ∧ ownerCalls evs = [] := by
  refine ⟨_, handler_actions_rejected ep request w 400 ?_, rfl, rfl⟩
  by_cases hid : request.GetValue "topologyid" = ""
  · simp [verdict, hid]
  · simp [verdict, hid, hw, hne]

theorem C3_id_mismatch_rejected_witness :
    (topo1World .PAUSED).topology = some { id := "topo-1", state := .PAUSED } ∧
    topo2Request.GetValue "topologyid" ≠ "topo-1" ∧
    ∃ evs, actions (Endpoint.activate.handler topo2Request) (topo1World .PAUSED) = some evs ∧
      replies evs = [⟨400, none⟩] ∧ ownerCalls evs = [] :=
  ⟨rfl, by decide,
   C3_id_mismatch_rejected .activate topo2Request (topo1World .PAUSED)
     { id := "topo-1", state := .PAUSED } rfl (by decide)⟩

/-- C4, as stated, fails: the request `?topologyid=` against a PAUSED
snapshot whose id is the empty string has matching ids, yet the activate
handler answers 400 and does not call `ActivateTopology`. -/
theorem C4_counterexample_empty_matching_id :
    (emptyIdWorld .PAUSED).topology = some { id := "", state := .PAUSED } ∧
    emptyIdRequest.GetValue "topologyid" = "" ∧
    actions (HandleActivateRequest emptyIdRequest) (emptyIdWorld .PAUSED) =
      some [.SendErrorReply emptyIdRequest 400, .Delete emptyIdRequest] ∧
    ¬ ∃ evs cb, actions (HandleActivateRequest emptyIdRequest) (emptyIdWorld .PAUSED) =
        some evs ∧ ownerCalls evs = [.ActivateTopology cb] := by
  have hact : actions (HandleActivateRequest emptyIdRequest) (emptyIdWorld .PAUSED) =
      some [.SendErrorReply emptyIdRequest 400, .Delete emptyIdRequest] :=
    handler_actions_rejected .activate emptyIdRequest (emptyIdWorld .PAUSED) 400 (by decide)
  refine ⟨rfl, by decide, hact, ?_⟩
  rintro ⟨evs, cb, h, hc⟩
  rw [hact] at h
  cases h
  simp [ownerCalls, Event.continuation] at hc

/-- C4, amended: for an activate request with a non-empty `topologyid`
and a PAUSED snapshot with that id, `HandleActivateRequest` calls
`ActivateTopology` exactly once and nothing else of the master; the
continuation it passes, called with OK, replies 200 with the body
"Topology successfully activated", and called with any other status
replies 500. -/
theorem C4_activate_paused_dispatches (request : IncomingHTTPRequest) (w : World)
    (t : Topology) (hid : request.GetValue "topologyid" ≠ "")
    (hw : w.topology = some t) (hm : t.id = request.GetValue "topologyid")
    (hs : t.state = .PAUSED) :
    ∃ evs cb, actions (HandleActivateRequest request) w = some evs ∧
      ownerCalls evs = [.ActivateTopology cb] ∧
      (∀ later, ∃ evs2, actions (cb.call .OK) later = some evs2 ∧
        replies evs2 = [⟨200, some "Topology successfully activated"⟩]) ∧
      (∀ status later, status ≠ .OK → ∃ evs2, actions (cb.call status) later = some evs2 ∧
        replies evs2 = [⟨500, none⟩]) := by
  have hv : verdict .activate (request.GetValue "topologyid") w.topology = none := by
    simp [verdict, hid, hw, hm, hs, Endpoint.requiredState]
  refine ⟨_, .activateDone request, handler_actions_dispatched .activate request w hv, rfl,
    ?_, ?_⟩
  · intro later
    exact ⟨_, call_actions _ _ later, rfl⟩
  · intro status later hne
    exact ⟨_, call_actions _ _ later, by simp [completion, hne, replies, Event.reply]⟩

theorem C4_activate_paused_dispatches_witness :
    topo1Request.GetValue "topologyid" ≠ "" ∧
    (topo1World .PAUSED).topology = some { id := "topo-1", state := .PAUSED } ∧
    ∃ evs cb, actions (HandleActivateRequest topo1Request) (topo1World .PAUSED) = some evs ∧
      ownerCalls evs = [.ActivateTopology cb] ∧
      (∀ later, ∃ evs2, actions (cb.call .OK) later = some evs2 ∧
        replies evs2 = [⟨200, some "Topology successfully activated"⟩]) ∧
      (∀ status later, status ≠ .OK → ∃ evs2, actions (cb.call status) later = some evs2 ∧
        replies evs2 = [⟨500, none⟩]) :=
  ⟨by decide, rfl,
   C4_activate_paused_dispatches topo1Request (topo1World .PAUSED)
     { id := "topo-1", state := .PAUSED } (by decide) rfl (by decide) rfl⟩

/-- C5: an activate request against a present snapshot with the same id
whose state is not PAUSED is answered with 400, and `ActivateTopology` is
not called. -/
theorem C5_activate_wrong_state_rejected (request : IncomingHTTPRequest) (w : World)
    (t : Topology) (hw : w.topology = some t)
    (hm : t.id = request.GetValue "topologyid") (hs : t.state ≠ .PAUSED) :
    ∃ evs, actions (HandleActivateRequest request) w = some evs ∧
      replies evs = [⟨400, none⟩] ∧ ownerCalls evs = [] := by
  refine ⟨_, handler_actions_rejected .activate request w 400 ?_, rfl, rfl⟩
  by_cases hid : request.GetValue "topologyid" = ""
  · simp [verdict, hid]
  · simp [verdict, hid, hw, hm, hs, Endpoint.requiredState]

theorem C5_activate_wrong_state_rejected_witness :
    (topo1World .RUNNING).topology = some { id := "topo-1", state := .RUNNING } ∧
    ∃ evs, actions (HandleActivateRequest topo1Request) (topo1World .RUNNING) = some evs ∧
      replies evs = [⟨400, none⟩] ∧ ownerCalls evs = [] :=
  ⟨rfl,
   C5_activate_wrong_state_rejected topo1Request (topo1World .RUNNING)
     { id := "topo-1", state := .RUNNING } rfl (by decide) (by decide)⟩

/-- C6, as stated, fails: the request `?topologyid=` against a RUNNING
snapshot whose id is the empty string has matching ids, yet the
deactivate handler answers 400 and does not call `DeActivateTopology`. -/
theorem C6_counterexample_empty_matching_id :
    (emptyIdWorld .RUNNING).topology = some { id := "", state := .RUNNING } ∧
    emptyIdRequest.GetValue "topologyid" = "" ∧
    actions (HandleDeActivateRequest emptyIdRequest) (emptyIdWorld .RUNNING) =
      some [.SendErrorReply emptyIdRequest 400, .Delete emptyIdRequest] ∧
    ¬ ∃ evs cb, actions (HandleDeActivateRequest emptyIdRequest) (emptyIdWorld .RUNNING) =
        some evs ∧ ownerCalls evs = [.DeActivateTopology cb] := by
  have hact : actions (HandleDeActivateRequest emptyIdRequest) (emptyIdWorld .RUNNING) =
      some [.SendErrorReply emptyIdRequest 400, .Delete emptyIdRequest] :=
    handler_actions_rejected .deactivate emptyIdRequest (emptyIdWorld .RUNNING) 400 (by decide)
  refine ⟨rfl, by decide, hact, ?_⟩
  rintro ⟨evs, cb, h, hc⟩
  rw [hact] at h
  cases h
  simp [ownerCalls, Event.continuation] at hc

/-- C6, amended: for a deactivate request with a non-empty `topologyid`
and a RUNNING snapshot with that id, `HandleDeActivateRequest` calls
`DeActivateTopology` exactly once and nothing else of the master; the
continuation it passes, called with OK, replies 200 with the body
"Topology successfully deactivated", and called with any other status
replies 500. -/
theorem C6_deactivate_running_dispatches (request : IncomingHTTPRequest) (w : World)
    (t : Topology) (hid : request.GetValue "topologyid" ≠ "")
    (hw : w.topology = some t) (hm : t.id = request.GetValue "topologyid")
    (hs : t.state = .RUNNING) :
    ∃ evs cb, actions (HandleDeActivateRequest request) w = some evs ∧
      ownerCalls evs = [.DeActivateTopology cb] ∧
      (∀ later, ∃ evs2, actions (cb.call .OK) later = some evs2 ∧
        replies evs2 = [⟨200, some "Topology successfully deactivated"⟩]) ∧
      (∀ status later, status ≠ .OK → ∃ evs2, actions (cb.call status) later = some evs2 ∧
        replies evs2 = [⟨500, none⟩]) := by
  have hv : verdict .deactivate (request.GetValue "topologyid") w.topology = none := by
    simp [verdict, hid, hw, hm, hs, Endpoint.requiredState]
  refine ⟨_, .deactivateDone request, handler_actions_dispatched .deactivate request w hv,
    rfl, ?_, ?_⟩
  · intro later
    exact ⟨_, call_actions _ _ later, rfl⟩
  · intro status later hne
    exact ⟨_, call_actions _ _ later, by simp [completion, hne, replies, Event.reply]⟩

theorem C6_deactivate_running_dispatches_witness :
    topo1Request.GetValue "topologyid" ≠ "" ∧
    (topo1World .RUNNING).topology = some { id := "topo-1", state := .RUNNING } ∧
    ∃ evs cb, actions (HandleDeActivateRequest topo1Request) (topo1World .RUNNING) = some evs ∧
      ownerCalls evs = [.DeActivateTopology cb] ∧
      (∀ later, ∃ evs2, actions (cb.call .OK) later = some evs2 ∧
        replies evs2 = [⟨200, some "Topology successfully deactivated"⟩]) ∧
      (∀ status later, status ≠ .OK → ∃ evs2, actions (cb.call status) later = some evs2 ∧
        replies evs2 = [⟨500, none⟩]) :=
  ⟨by decide, rfl,
   C6_deactivate_running_dispatches topo1Request (topo1World .RUNNING)
     { id := "topo-1", state := .RUNNING } (by decide) rfl (by decide) rfl⟩

/-- C7: a deactivate request against a present snapshot with the same id
whose state is not RUNNING is answered with 400, and `DeActivateTopology`
is not called. -/
theorem C7_deactivate_wrong_state_rejected (request : IncomingHTTPRequest) (w : World)
    (t : Topology) (hw : w.topology = some t)
    (hm : t.id = request.GetValue "topologyid") (hs : t.state ≠ .RUNNING) :
    ∃ evs, actions (HandleDeActivateRequest request) w = some evs ∧
      replies evs = [⟨400, none⟩] ∧ ownerCalls evs = [] := by
  refine ⟨_, handler_actions_rejected .deactivate request w 400 ?_, rfl, rfl⟩
  by_cases hid : request.GetValue "topologyid" = ""
  · simp [verdict, hid]
  · simp [verdict, hid, hw, hm, hs, Endpoint.requiredState]

theorem C7_deactivate_wrong_state_rejected_witness :
    (topo1World .PAUSED).topology = some { id := "topo-1", state := .PAUSED } ∧
    ∃ evs, actions (HandleDeActivateRequest topo1Request) (topo1World .PAUSED) = some evs ∧
      replies evs = [⟨400, none⟩] ∧ ownerCalls evs = [] :=
  ⟨rfl,
   C7_deactivate_wrong_state_rejected topo1Request (topo1World .PAUSED)
     { id := "topo-1", state := .PAUSED } rfl (by decide) (by decide)⟩

theorem specFirstFailure_eq_verdict (ep : Endpoint) (id : String)
    (snapshot : Option Topology) :
    specFirstFailure ep.requiredState id snapshot = verdict ep id snapshot := by
  by_cases h1 : id = ""
  · simp [specFirstFailure, specChecks, verdict, h1, List.find?]
  · cases snapshot with
    | none => simp [specFirstFailure, specChecks, verdict, h1, List.find?]
    | some t =>
      by_cases h2 : t.id = id
      · by_cases h3 : t.state = ep.requiredState
        · simp [specFirstFailure, specChecks, verdict, h1, h2, h3, List.find?]
        · simp [specFirstFailure, specChecks, verdict, h1, h2, h3, List.find?]
      · have h2b : ¬ id = t.id := fun h => h2 h.symm
        simp [specFirstFailure, specChecks, verdict, h1, h2, h2b, List.find?]

/-- C8: for either endpoint, any request, any state of the master and any
outcome, the actions of one request (the handler, then the continuation
called once when the master was called) hold exactly one reply and
exactly one release, both of this request, and the release directly
follows the reply. -/
theorem C8_one_reply_one_release (ep : Endpoint) (request : IncomingHTTPRequest)
    (outcome : StatusCode) (w later : World) :
    ∃ tr, requestTrace ep request outcome w later = some tr ∧
      (replies tr).length = 1 ∧ releases tr = [request] ∧
      ∃ pre e, tr = pre ++ [e, .Delete request] ∧ e.repliedTo = some request ∧
        e.reply.isSome = true ∧ replies pre = [] ∧ releases pre = [] := by
  cases hv : verdict ep (request.GetValue "topologyid") w.topology with
  | some code =>
    refine ⟨[.SendErrorReply request code, .Delete request], ?_, rfl, rfl,
      [], .SendErrorReply request code, rfl, rfl, rfl, rfl, rfl⟩
    simp [requestTrace, handler_actions_rejected ep request w code hv, Event.continuation,
      deliver_nil]
  | none =>
    obtain ⟨cb, hcb, hreq⟩ := dispatch_continuation ep request
    obtain ⟨e, hshape, hto, hrep, hrel, hcont⟩ := completion_shape cb outcome
    rw [hreq] at hshape hto
    have hreply : ∃ r, e.reply = some r := Option.isSome_iff_exists.mp hrep
    obtain ⟨r, hr⟩ := hreply
    have hnr : (ep.dispatch request).reply = none := by cases ep <;> rfl
    have hnd : (ep.dispatch request).released = none := by cases ep <;> rfl
    have hdr : (Event.Delete request).reply = none := rfl
    have hdd : (Event.Delete request).released = some request := rfl
    refine ⟨[ep.dispatch request, e, .Delete request], ?_, ?_, ?_,
      [ep.dispatch request], e, rfl, hto, hrep, ?_, ?_⟩
    · simp [requestTrace, handler_actions_dispatched ep request w hv, hcb, deliver_single,
        hshape]
    · simp [replies, List.filterMap_cons, hnr, hr, hdr]
    · simp [releases, List.filterMap_cons, hnd, hrel, hdd]
    · simp [replies, List.filterMap_cons, hnr]
    · simp [releases, List.filterMap_cons, hnd]

/-- C9: in both handlers the reply is that of the first failing check in
the order (1) `topologyid` non-empty, (2) snapshot present, (3) id match,
(4) required state, with statuses 400, 500, 400, 400: when that check has
status `code`, the handler sends the one error reply `code`, releases the
request and does nothing else; an empty `topologyid` gives 400 also when
the snapshot is absent. -/
theorem C9_first_failing_check_decides (ep : Endpoint) (request : IncomingHTTPRequest)
    (w : World) (code : Nat)
    (h : specFirstFailure ep.requiredState (request.GetValue "topologyid") w.topology =
      some code) :
    actions (ep.handler request) w = some [.SendErrorReply request code, .Delete request] ∧
    (request.GetValue "topologyid" = "" → code = 400) ∧
    (request.GetValue "topologyid" ≠ "" → w.topology = none → code = 500) := by
  rw [specFirstFailure_eq_verdict] at h
  refine ⟨handler_actions_rejected ep request w code h, ?_, ?_⟩
  · intro hid
    simp [verdict, hid] at h
    exact h.symm
  · intro hid hw
    simp [verdict, hid, hw] at h
    exact h.symm

theorem C9_first_failing_check_decides_witness :
    specFirstFailure Endpoint.activate.requiredState (emptyIdRequest.GetValue "topologyid")
      absentWorld.topology = some 400 ∧
    (actions (Endpoint.activate.handler emptyIdRequest) absentWorld =
      some [.SendErrorReply emptyIdRequest 400, .Delete emptyIdRequest] ∧
    (emptyIdRequest.GetValue "topologyid" = "" → 400 = 400) ∧
    (emptyIdRequest.GetValue "topologyid" ≠ "" → absentWorld.topology = none → 400 = 500)) :=
  ⟨by decide,
   C9_first_failing_check_decides .activate emptyIdRequest absentWorld 400 (by decide)⟩

/-- C10: when all four checks pass, the handler sends no reply and does
not release the request: it leaves the snapshot as it was, logs its entry
line, and adds to the trace the single call of the master, whose
continuation is bound to this request; the reply and the release are the
actions of that continuation. -/
theorem C10_dispatch_only (ep : Endpoint) (request : IncomingHTTPRequest) (w : World)
    (t : Topology) (hid : request.GetValue "topologyid" ≠ "")
    (hw : w.topology = some t) (hm : t.id = request.GetValue "topologyid")
    (hs : t.state = ep.requiredState) :
    ∃ w1 cb, (ep.handler request).run w = some ((), w1) ∧
      w1.trace = w.trace ++ [ep.dispatch request] ∧
      w1.topology = w.topology ∧
      w1.log = w.log ++ [ep.entryLine request] ∧
      replies [ep.dispatch request] = [] ∧
      releases [ep.dispatch request] = [] ∧
      (ep.dispatch request).continuation = some cb ∧
      cb.request = request ∧
      ∀ outcome later, ∃ e, actions (cb.call outcome) later = some [e, .Delete request] ∧
        e.repliedTo = some request ∧ e.reply.isSome = true := by
  have hv : verdict ep (request.GetValue "topologyid") w.topology = none := by
    simp [verdict, hid, hw, hm, hs]
  obtain ⟨cb, hcb, hreq⟩ := dispatch_continuation ep request
  refine ⟨_, cb, handler_dispatches ep request w hv, rfl, rfl, rfl, ?_, ?_, hcb, hreq, ?_⟩
  · cases ep <;> rfl
  · cases ep <;> rfl
  · intro outcome later
    obtain ⟨e, hshape, hto, hrep, _, _⟩ := completion_shape cb outcome
    rw [hreq] at hshape hto
    exact ⟨e, by rw [call_actions, hshape], hto, hrep⟩

theorem C10_dispatch_only_witness :
    topo1Request.GetValue "topologyid" ≠ "" ∧
    (topo1World .RUNNING).topology = some { id := "topo-1", state := .RUNNING } ∧
    ∃ w1 cb, (Endpoint.deactivate.handler topo1Request).run (topo1World .RUNNING) =
        some ((), w1) ∧
      w1.trace = (topo1World .RUNNING).trace ++ [Endpoint.deactivate.dispatch topo1Request] ∧
      w1.topology = (topo1World .RUNNING).topology ∧
      w1.log = (topo1World .RUNNING).log ++ [Endpoint.deactivate.entryLine topo1Request] ∧
      replies [Endpoint.deactivate.dispatch topo1Request] = [] ∧
      releases [Endpoint.deactivate.dispatch topo1Request] = [] ∧
      (Endpoint.deactivate.dispatch topo1Request).continuation = some cb ∧
      cb.request = topo1Request ∧
      ∀ outcome later, ∃ e, actions (cb.call outcome) later =
          some [e, .Delete topo1Request] ∧
        e.repliedTo = some topo1Request ∧ e.reply.isSome = true :=
  ⟨by decide, rfl,
   C10_dispatch_only .deactivate topo1Request (topo1World .RUNNING)
     { id := "topo-1", state := .RUNNING } (by decide) rfl (by decide) rfl⟩

theorem verdict_status (ep : Endpoint) (id : String) (snapshot : Option Topology)
    (code : Nat) (h : verdict ep id snapshot = some code) : code = 400 ∨ code = 500 := by
  unfold verdict at h
  split_ifs at h with h1
  · cases h; exact Or.inl rfl
  · cases snapshot with
    | none => cases h; exact Or.inr rfl
    | some t =>
      simp only at h
      split_ifs at h with h2 h3
      · cases h; exact Or.inl rfl
      · cases h; exact Or.inl rfl

theorem verdict_eq_none_iff (ep : Endpoint) (id : String) (snapshot : Option Topology) :
    verdict ep id snapshot = none ↔ ep.preconditions id snapshot := by
  unfold verdict Endpoint.preconditions
  by_cases h1 : id = ""
  · simp [h1]
  · cases snapshot with
    | none => simp [h1]
    | some t =>
      by_cases h2 : id = t.id
      · by_cases h3 : t.state = ep.requiredState
        · simp [h1, h2, h3]
        · simp [h1, h2, h3]
      · have h2b : ¬ t.id = id := fun h => h2 h.symm
        simp [h1, h2, h2b]

theorem operation_actions (op : Operation) (w : World) :
    ∃ evs, actions op.run w = some evs ∧
      ((∃ (request : IncomingHTTPRequest) (code : Nat), (code = 400 ∨ code = 500) ∧
          evs = [.SendErrorReply request code, .Delete request]) ∨
       (∃ (ep : Endpoint) (request : IncomingHTTPRequest), evs = [ep.dispatch request]) ∨
       (∃ cb : Continuation, evs = [.SendReply cb.request 200 ⟨cb.request, cb.confirmation⟩,
          .Delete cb.request])) := by
  have handler : ∀ (ep : Endpoint) (request : IncomingHTTPRequest),
      ∃ evs, actions (ep.handler request) w = some evs ∧
      ((∃ (request : IncomingHTTPRequest) (code : Nat), (code = 400 ∨ code = 500) ∧
          evs = [.SendErrorReply request code, .Delete request]) ∨
       (∃ (ep : Endpoint) (request : IncomingHTTPRequest), evs = [ep.dispatch request]) ∨
       (∃ cb : Continuation, evs = [.SendReply cb.request 200 ⟨cb.request, cb.confirmation⟩,
          .Delete cb.request])) := by
    intro ep request
    cases hv : verdict ep (request.GetValue "topologyid") w.topology with
    | some code =>
      exact ⟨_, handler_actions_rejected ep request w code hv,
        Or.inl ⟨request, code, verdict_status _ _ _ _ hv, rfl⟩⟩
    | none =>
      exact ⟨_, handler_actions_dispatched ep request w hv,
        Or.inr (Or.inl ⟨ep, request, rfl⟩)⟩
  have done : ∀ (cb : Continuation) (status : StatusCode),
      ∃ evs, actions (cb.call status) w = some evs ∧
      ((∃ (request : IncomingHTTPRequest) (code : Nat), (code = 400 ∨ code = 500) ∧
          evs = [.SendErrorReply request code, .Delete request]) ∨
       (∃ (ep : Endpoint) (request : IncomingHTTPRequest), evs = [ep.dispatch request]) ∨
       (∃ cb : Continuation, evs = [.SendReply cb.request 200 ⟨cb.request, cb.confirmation⟩,
          .Delete cb.request])) := by
    intro cb status
    refine ⟨_, call_actions cb status w, ?_⟩
    by_cases h : status = .OK
    · exact Or.inr (Or.inr ⟨cb, by simp [completion, h]⟩)
    · exact Or.inl ⟨cb.request, 500, Or.inr rfl, by simp [completion, h]⟩
  cases op with
  | activate request => exact handler .activate request
  | activateDone request status => exact done (.activateDone request) status
  | deactivate request => exact handler .deactivate request
  | deactivateDone request status => exact done (.deactivateDone request) status

/-- C11: every reply sent by any of the four operations is a success
reply (status 200 and one of the two confirmation texts as its body) or
an error reply (status 400 or 500 and no body). -/
theorem C11_reply_is_success_or_error (op : Operation) (w : World) :
    ∃ evs, actions op.run w = some evs ∧
      ∀ r ∈ replies evs, r.isSuccess ∨ r.isError := by
  obtain ⟨evs, hact, hshape⟩ := operation_actions op w
  refine ⟨evs, hact, ?_⟩
  rcases hshape with ⟨request, code, hcode, rfl⟩ | ⟨ep, request, rfl⟩ | ⟨cb, rfl⟩
  · intro r hr
    have : r = ⟨code, none⟩ := by simpa [replies, Event.reply] using hr
    subst this
    exact Or.inr ⟨hcode, rfl⟩
  · intro r hr
    cases ep <;> simp [replies, Event.reply, Endpoint.dispatch] at hr
  · intro r hr
    have : r = ⟨200, some cb.confirmation⟩ := by simpa [replies, Event.reply] using hr
    subst this
    cases cb
    · exact Or.inl ⟨rfl, Or.inl rfl⟩
    · exact Or.inl ⟨rfl, Or.inr rfl⟩

theorem observed_activate_run (tmaster_ : Master) (request : IncomingHTTPRequest)
    (w : World) :
    (Observed.HandleActivateRequest tmaster_ request).run ⟨w, []⟩ = some ((),
      let entry := "Got a activate topology request from " ++ peerText request
      let r : Read := ⟨w.topology, w.trace.length⟩
      if request.GetValue "topologyid" = "" then
        ⟨rejected request entry "topologyid not specified in the request" 400 w, []⟩
      else match w.topology with
        | none => ⟨rejected request entry "Tmaster still not initialized" 500 w, [r]⟩
        | some t =>
          if request.GetValue "topologyid" ≠ t.id then
            ⟨rejected request entry "Topology id does not match" 400 w, [r, r]⟩
          else if t.state ≠ .PAUSED then
            ⟨rejected request entry "Topology not in paused state" 400 w, [r, r, r]⟩
          else
            ⟨{ dispatched .activate request w with
                topology := tmaster_.ActivateTopology w.topology }, [r, r, r]⟩) := by
  by_cases h : request.GetValue "topologyid" = ""
  · simp [Observed.HandleActivateRequest, Observed.LOG, Observed.SendErrorReply,
      Observed.delete, Observed.onWorld, h, LOG, SendErrorReply, delete, emit, StateT.run,
      bind, StateT.bind, modify, modifyGet, MonadStateOf.modifyGet, StateT.modifyGet, pure,
      rejected]
  · cases hw : w.topology with
    | none =>
      simp [Observed.HandleActivateRequest, Observed.LOG, Observed.SendErrorReply,
        Observed.delete, Observed.onWorld, Observed.getTopology, h, hw, LOG, SendErrorReply,
        delete, emit, StateT.run, bind, StateT.bind, modify, modifyGet,
        MonadStateOf.modifyGet, StateT.modifyGet, pure, rejected, getTopology, get, getThe,
        MonadStateOf.get, StateT.get, StateT.pure]
    | some t =>
      by_cases h2 : request.GetValue "topologyid" = t.id
      · by_cases h3 : t.state = .PAUSED <;>
        simp [Observed.HandleActivateRequest, Observed.LOG, Observed.SendErrorReply,
          Observed.delete, Observed.onWorld, Observed.getTopology, Observed.deref,
          Observed.ActivateTopology, h, hw, ← h2, h3, LOG, SendErrorReply, delete, emit,
          StateT.run, bind, StateT.bind, modify, modifyGet, MonadStateOf.modifyGet,
          StateT.modifyGet, pure, rejected, dispatched, Endpoint.entryLine, Endpoint.dispatch,
          getTopology, get, getThe, MonadStateOf.get, StateT.get, StateT.pure, deref,
          ActivateTopology]
      · simp [Observed.HandleActivateRequest, Observed.LOG, Observed.SendErrorReply,
          Observed.delete, Observed.onWorld, Observed.getTopology, Observed.deref, h, hw, h2,
          LOG, SendErrorReply, delete, emit, StateT.run, bind, StateT.bind, modify, modifyGet,
          MonadStateOf.modifyGet, StateT.modifyGet, pure, rejected, getTopology, get, getThe,
          MonadStateOf.get, StateT.get, StateT.pure, deref]

theorem observed_deactivate_run (tmaster_ : Master) (request : IncomingHTTPRequest)
    (w : World) :
    (Observed.HandleDeActivateRequest tmaster_ request).run ⟨w, []⟩ = some ((),
      let entry := "Got a deactivate topology request from " ++ peerText request
      let r : Read := ⟨w.topology, w.trace.length⟩
      if request.GetValue "topologyid" = "" then
        ⟨rejected request entry "Request does not contain topology id" 400 w, []⟩
      else match w.topology with
        | none => ⟨rejected request entry "Tmaster still not initialized" 500 w, [r]⟩
        | some t =>
          if request.GetValue "topologyid" ≠ t.id then
            ⟨rejected request entry "Topology id does not match" 400 w, [r, r]⟩
          else if t.state ≠ .RUNNING then
            ⟨rejected request entry "Topology not in running state" 400 w, [r, r, r]⟩
          else
            ⟨{ dispatched .deactivate request w with
                topology := tmaster_.DeActivateTopology w.topology }, [r, r, r]⟩) := by
  by_cases h : request.GetValue "topologyid" = ""
  · simp [Observed.HandleDeActivateRequest, Observed.LOG, Observed.SendErrorReply,
      Observed.delete, Observed.onWorld, h, LOG, SendErrorReply, delete, emit, StateT.run,
      bind, StateT.bind, modify, modifyGet, MonadStateOf.modifyGet, StateT.modifyGet, pure,
      rejected]
  · cases hw : w.topology with
    | none =>
      simp [Observed.HandleDeActivateRequest, Observed.LOG, Observed.SendErrorReply,
        Observed.delete, Observed.onWorld, Observed.getTopology, h, hw, LOG, SendErrorReply,
        delete, emit, StateT.run, bind, StateT.bind, modify, modifyGet,
        MonadStateOf.modifyGet, StateT.modifyGet, pure, rejected, getTopology, get, getThe,
        MonadStateOf.get, StateT.get, StateT.pure]
    | some t =>
      by_cases h2 : request.GetValue "topologyid" = t.id
      · by_cases h3 : t.state = .RUNNING <;>
        simp [Observed.HandleDeActivateRequest, Observed.LOG, Observed.SendErrorReply,
          Observed.delete, Observed.onWorld, Observed.getTopology, Observed.deref,
          Observed.DeActivateTopology, h, hw, ← h2, h3, LOG, SendErrorReply, delete, emit,
          StateT.run, bind, StateT.bind, modify, modifyGet, MonadStateOf.modifyGet,
          StateT.modifyGet, pure, rejected, dispatched, Endpoint.entryLine, Endpoint.dispatch,
          getTopology, get, getThe, MonadStateOf.get, StateT.get, StateT.pure, deref,
          DeActivateTopology]
      · simp [Observed.HandleDeActivateRequest, Observed.LOG, Observed.SendErrorReply,
          Observed.delete, Observed.onWorld, Observed.getTopology, Observed.deref, h, hw, h2,
          LOG, SendErrorReply, delete, emit, StateT.run, bind, StateT.bind, modify, modifyGet,
          MonadStateOf.modifyGet, StateT.modifyGet, pure, rejected, getTopology, get, getThe,
          MonadStateOf.get, StateT.get, StateT.pure, deref]

/-- C12: over a master whose transition methods may change the snapshot
in any way, every read of `getTopology()` a handler makes (at most three)
returns the snapshot held at handler entry and is made before any action
of the handler, the call of the master included; the handler then either
rejects, and the snapshot is the one before it, or makes the call of the
master as its only action.  Its actions are those of the handler of the
route. -/
theorem C12_reads_see_entry_snapshot (tmaster_ : Master) (ep : Endpoint)
    (request : IncomingHTTPRequest) (w : World) :
    ∃ p, (Observed.handler tmaster_ ep request).run ⟨w, []⟩ = some ((), p) ∧
      p.reads.length ≤ 3 ∧
      (∀ r ∈ p.reads, r.seen = w.topology ∧ r.position = w.trace.length) ∧
      actions (ep.handler request) w = some (p.world.trace.drop w.trace.length) ∧
      ((∃ code, p.world.trace = w.trace ++ [.SendErrorReply request code, .Delete request] ∧
          p.world.topology = w.topology) ∨
       (p.world.trace = w.trace ++ [ep.dispatch request] ∧
          p.world.topology = tmaster_.transition ep w.topology)) := by
  cases ep
  · refine ⟨_, observed_activate_run tmaster_ request w, ?_⟩
    by_cases h1 : request.GetValue "topologyid" = ""
    · have hv : verdict .activate (request.GetValue "topologyid") w.topology = some 400 := by
        simp [verdict, h1]
      simp [h1, rejected, handler_actions_rejected .activate request w 400 hv]
    · cases hw : w.topology with
      | none =>
        have hv : verdict .activate (request.GetValue "topologyid") w.topology = some 500 := by
          simp [verdict, h1, hw]
        simp [h1, hw, rejected, handler_actions_rejected .activate request w 500 hv]
      | some t =>
        by_cases h2 : request.GetValue "topologyid" = t.id
        · by_cases h3 : t.state = .PAUSED
          · have hv : verdict .activate (request.GetValue "topologyid") w.topology = none := by
              simp [verdict, h1, hw, ← h2, h3, Endpoint.requiredState]
            simp [h1, ← h2, h3, dispatched, Master.transition,
              handler_actions_dispatched .activate request w hv, hw]
          · have hv : verdict .activate (request.GetValue "topologyid") w.topology =
                some 400 := by
              simp [verdict, h1, hw, ← h2, h3, Endpoint.requiredState]
            simp [h1, hw, ← h2, h3, rejected,
              handler_actions_rejected .activate request w 400 hv]
        · have hv : verdict .activate (request.GetValue "topologyid") w.topology =
              some 400 := by
            simp [verdict, h1, hw, h2]
          simp [h1, hw, h2, rejected, handler_actions_rejected .activate request w 400 hv]
  · refine ⟨_, observed_deactivate_run tmaster_ request w, ?_⟩
    by_cases h1 : request.GetValue "topologyid" = ""
    · have hv : verdict .deactivate (request.GetValue "topologyid") w.topology =
          some 400 := by
        simp [verdict, h1]
      simp [h1, rejected, handler_actions_rejected .deactivate request w 400 hv]
    · cases hw : w.topology with
      | none =>
        have hv : verdict .deactivate (request.GetValue "topologyid") w.topology =
            some 500 := by
          simp [verdict, h1, hw]
        simp [h1, hw, rejected, handler_actions_rejected .deactivate request w 500 hv]
      | some t =>
        by_cases h2 : request.GetValue "topologyid" = t.id
        · by_cases h3 : t.state = .RUNNING
          · have hv : verdict .deactivate (request.GetValue "topologyid") w.topology =
                none := by
              simp [verdict, h1, hw, ← h2, h3, Endpoint.requiredState]
            simp [h1, ← h2, h3, dispatched, Master.transition,
              handler_actions_dispatched .deactivate request w hv, hw]
          · have hv : verdict .deactivate (request.GetValue "topologyid") w.topology =
                some 400 := by
              simp [verdict, h1, hw, ← h2, h3, Endpoint.requiredState]
            simp [h1, hw, ← h2, h3, rejected,
              handler_actions_rejected .deactivate request w 400 hv]
        · have hv : verdict .deactivate (request.GetValue "topologyid") w.topology =
              some 400 := by
            simp [verdict, h1, hw, h2]
          simp [h1, hw, h2, rejected, handler_actions_rejected .deactivate request w 400 hv]

theorem C12_reads_see_entry_snapshot_witness :
    ∃ p, (Observed.handler sampleMaster .activate topo1Request).run
        ⟨topo1World .PAUSED, []⟩ = some ((), p) ∧
      p.reads = List.replicate 3 ⟨some { id := "topo-1", state := .PAUSED }, 0⟩ ∧
      p.world.topology = some { id := "topo-1", state := .RUNNING } ∧
      p.world.trace = [.ActivateTopology (.activateDone topo1Request)] ∧
      ∀ r ∈ p.reads, r.seen = (topo1World .PAUSED).topology ∧
        r.position = (topo1World .PAUSED).trace.length := by
  obtain ⟨p, hrun, _, hreads, _, _⟩ :=
    C12_reads_see_entry_snapshot sampleMaster .activate topo1Request (topo1World .PAUSED)
  have hconcrete : (Observed.handler sampleMaster .activate topo1Request).run
      ⟨topo1World .PAUSED, []⟩ = some ((),
        { world :=
            { topology := some { id := "topo-1", state := .RUNNING },
              log := [Endpoint.activate.entryLine topo1Request],
              trace := [.ActivateTopology (.activateDone topo1Request)] },
          reads := List.replicate 3 ⟨some { id := "topo-1", state := .PAUSED }, 0⟩ }) := by
    decide
  have hp : p = _ := ((Prod.mk.inj (Option.some.inj (hrun.symm.trans hconcrete))).2).symm.symm
  subst hp
  exact ⟨_, hrun, rfl, rfl, rfl, hreads⟩

theorem verdict_exchange (id : String) (snapshot : Option Topology) :
    verdict .activate id (snapshot.map Topology.exchange) = verdict .deactivate id snapshot := by
  unfold verdict
  by_cases h1 : id = ""
  · simp [h1]
  · cases snapshot with
    | none => simp [h1]
    | some t =>
      by_cases h2 : id = t.id
      · cases hs : t.state <;>
        simp [h1, h2, hs, Topology.exchange, TopologyState.exchange, Endpoint.requiredState]
      · simp [h1, h2, Topology.exchange]

/-- C13: deactivation mirrors activation.  The actions of
`HandleDeActivateRequest` are those of `HandleActivateRequest` on the
same request with PAUSED and RUNNING exchanged in the snapshot, read with
`DeActivateTopology` in place of `ActivateTopology`; the actions of the
two completions agree for every outcome once the confirmation body is
replaced. -/
theorem C13_deactivate_mirrors_activate (request : IncomingHTTPRequest) (w later : World)
    (status : StatusCode) :
    actions (HandleDeActivateRequest request) w =
      (actions (HandleActivateRequest request) w.exchange).map (List.map Event.toDeactivate) ∧
    actions (HandleDeActivateRequestDone request status) later =
      (actions (HandleActivateRequestDone request status) later).map
        (List.map Event.toDeactivate) := by
  constructor
  · have hx := verdict_exchange (request.GetValue "topologyid") w.topology
    cases hv : verdict .deactivate (request.GetValue "topologyid") w.topology with
    | some code =>
      rw [hv] at hx
      have hd : actions (HandleDeActivateRequest request) w = _ :=
        handler_actions_rejected .deactivate request w code hv
      have ha : actions (HandleActivateRequest request) w.exchange = _ :=
        handler_actions_rejected .activate request w.exchange code hx
      rw [hd, ha]
      rfl
    | none =>
      rw [hv] at hx
      have hd : actions (HandleDeActivateRequest request) w = _ :=
        handler_actions_dispatched .deactivate request w hv
      have ha : actions (HandleActivateRequest request) w.exchange = _ :=
        handler_actions_dispatched .activate request w.exchange hx
      rw [hd, ha]
      rfl
  · have hd : actions (HandleDeActivateRequestDone request status) later = _ :=
      call_actions (.deactivateDone request) status later
    have ha : actions (HandleActivateRequestDone request status) later = _ :=
      call_actions (.activateDone request) status later
    rw [hd, ha]
    by_cases h : status = .OK
    · subst h
      have hb : toDeactivateBody "Topology successfully activated" =
          "Topology successfully deactivated" := by decide
      simp [completion, Event.toDeactivate, Continuation.request, Continuation.confirmation,
        hb]
    · simp [completion, h, Event.toDeactivate, Continuation.request]

theorem requestTrace_rejected (ep : Endpoint) (request : IncomingHTTPRequest)
    (outcome : StatusCode) (w later : World) (code : Nat)
    (hv : verdict ep (request.GetValue "topologyid") w.topology = some code) :
    requestTrace ep request outcome w later =
      some [.SendErrorReply request code, .Delete request] := by
  simp [requestTrace, handler_actions_rejected ep request w code hv, Event.continuation,
    deliver_nil]

theorem requestTrace_dispatched (ep : Endpoint) (request : IncomingHTTPRequest)
    (outcome : StatusCode) (w later : World)
    (hv : verdict ep (request.GetValue "topologyid") w.topology = none) :
    requestTrace ep request outcome w later =
      some (ep.dispatch request ::
        completion (match ep with
          | .activate => .activateDone request
          | .deactivate => .deactivateDone request) outcome) := by
  cases ep <;>
  simp [requestTrace, handler_actions_dispatched _ request w hv, Endpoint.dispatch,
    Event.continuation, deliver_single]

/-- C14: `HandleActivateRequest` calls `ActivateTopology` exactly when the
`topologyid` is non-empty, the snapshot is present, its id is the
`topologyid` and its state is PAUSED, and then this call is its only
action; in every other case its actions are one error reply and the
release.  An empty `topologyid` is answered with 400 whatever the
snapshot, a PAUSED snapshot with the empty id included. -/
theorem C14_exact_dispatch_condition (request : IncomingHTTPRequest) (w : World) :
    ∃ evs, actions (HandleActivateRequest request) w = some evs ∧
      ((∃ cb, Event.ActivateTopology cb ∈ evs) ↔
        (request.GetValue "topologyid" ≠ "" ∧
          ∃ t, w.topology = some t ∧ t.id = request.GetValue "topologyid" ∧
            t.state = .PAUSED)) ∧
      ((∃ cb, Event.ActivateTopology cb ∈ evs) →
        evs = [.ActivateTopology (.activateDone request)]) ∧
      ((¬ ∃ cb, Event.ActivateTopology cb ∈ evs) →
        ∃ code, evs = [.SendErrorReply request code, .Delete request]) ∧
      (request.GetValue "topologyid" = "" →
        evs = [.SendErrorReply request 400, .Delete request]) := by
  have hiff := verdict_eq_none_iff .activate (request.GetValue "topologyid") w.topology
  cases hv : verdict .activate (request.GetValue "topologyid") w.topology with
  | some code =>
    have hnot : ¬ ∃ cb, Event.ActivateTopology cb ∈
        [Event.SendErrorReply request code, Event.Delete request] := by simp
    refine ⟨_, handler_actions_rejected .activate request w code hv, ?_, ?_, ?_, ?_⟩
    · constructor
      · intro h; exact absurd h hnot
      · intro h
        have := hiff.mpr h
        rw [hv] at this
        cases this
    · intro h; exact absurd h hnot
    · intro _; exact ⟨code, rfl⟩
    · intro hid
      simp [verdict, hid] at hv
      rw [hv]
  | none =>
    refine ⟨_, handler_actions_dispatched .activate request w hv, ?_, ?_, ?_, ?_⟩
    · constructor
      · intro _; exact hiff.mp hv
      · intro _; exact ⟨.activateDone request, by simp [Endpoint.dispatch]⟩
    · intro _; rfl
    · intro h; exact absurd ⟨.activateDone request, by simp [Endpoint.dispatch]⟩ h
    · intro hid
      simp [verdict, hid] at hv

theorem C14_exact_dispatch_condition_witness :
    emptyIdRequest.GetValue "topologyid" = "" ∧
    (emptyIdWorld .PAUSED).topology = some { id := "", state := .PAUSED } ∧
    actions (HandleActivateRequest emptyIdRequest) (emptyIdWorld .PAUSED) =
      some [.SendErrorReply emptyIdRequest 400, .Delete emptyIdRequest] := by
  obtain ⟨evs, hact, _, _, _, hempty⟩ :=
    C14_exact_dispatch_condition emptyIdRequest (emptyIdWorld .PAUSED)
  have hid : emptyIdRequest.GetValue "topologyid" = "" := by decide
  exact ⟨hid, rfl, by rw [hact, hempty hid]⟩

/-- C15: for one snapshot at most one of the two handlers calls the
master, whatever the `topologyid` of the two requests (the same one in
particular), and when one does the other answers with a synchronous error
reply; `HandleActivateRequest` never calls
`DeActivateTopology` and `HandleDeActivateRequest` never calls
`ActivateTopology`. -/
theorem C15_handlers_exclusive (ra rd : IncomingHTTPRequest) (w : World) :
    ∃ evsA evsD, actions (HandleActivateRequest ra) w = some evsA ∧
      actions (HandleDeActivateRequest rd) w = some evsD ∧
      (ownerCalls evsA = [] ∨ ownerCalls evsD = []) ∧
      (ownerCalls evsA ≠ [] → ∃ code, evsD = [.SendErrorReply rd code, .Delete rd]) ∧
      (ownerCalls evsD ≠ [] → ∃ code, evsA = [.SendErrorReply ra code, .Delete ra]) ∧
      (∀ cb, Event.DeActivateTopology cb ∉ evsA) ∧
      (∀ cb, Event.ActivateTopology cb ∉ evsD) := by
  cases hva : verdict .activate (ra.GetValue "topologyid") w.topology with
  | some ca =>
    cases hvd : verdict .deactivate (rd.GetValue "topologyid") w.topology with
    | some cd =>
      refine ⟨_, _, handler_actions_rejected .activate ra w ca hva,
        handler_actions_rejected .deactivate rd w cd hvd, Or.inl rfl, ?_, ?_, ?_, ?_⟩
      · intro h; exact ⟨cd, rfl⟩
      · intro h; exact ⟨ca, rfl⟩
      · intro cb; simp
      · intro cb; simp
    | none =>
      refine ⟨_, _, handler_actions_rejected .activate ra w ca hva,
        handler_actions_dispatched .deactivate rd w hvd, Or.inl rfl, ?_, ?_, ?_, ?_⟩
      · intro h; exact absurd rfl h
      · intro h; exact ⟨ca, rfl⟩
      · intro cb; simp
      · intro cb; simp [Endpoint.dispatch]
  | none =>
    cases hvd : verdict .deactivate (rd.GetValue "topologyid") w.topology with
    | some cd =>
      refine ⟨_, _, handler_actions_dispatched .activate ra w hva,
        handler_actions_rejected .deactivate rd w cd hvd, Or.inr rfl, ?_, ?_, ?_, ?_⟩
      · intro h; exact ⟨cd, rfl⟩
      · intro h; exact absurd rfl h
      · intro cb; simp [Endpoint.dispatch]
      · intro cb; simp
    | none =>
      exfalso
      obtain ⟨_, ta, hta, _, hsa⟩ := (verdict_eq_none_iff _ _ _).mp hva
      obtain ⟨_, td, htd, _, hsd⟩ := (verdict_eq_none_iff _ _ _).mp hvd
      rw [hta] at htd
      cases htd
      rw [hsa] at hsd
      cases hsd

theorem C15_handlers_exclusive_witness :
    ∃ evsA evsD, actions (HandleActivateRequest topo1Request) (topo1World .PAUSED) =
        some evsA ∧
      actions (HandleDeActivateRequest topo1RequestElsewhere) (topo1World .PAUSED) =
        some evsD ∧
      ownerCalls evsA = [.ActivateTopology (.activateDone topo1Request)] ∧
      ∃ code, evsD =
        [.SendErrorReply topo1RequestElsewhere code, .Delete topo1RequestElsewhere] := by
  obtain ⟨evsA, evsD, ha, hd, _, hreject, _, _, _⟩ :=
    C15_handlers_exclusive topo1Request topo1RequestElsewhere (topo1World .PAUSED)
  have hA : actions (HandleActivateRequest topo1Request) (topo1World .PAUSED) =
      some [.ActivateTopology (.activateDone topo1Request)] :=
    handler_actions_dispatched .activate topo1Request (topo1World .PAUSED) (by decide)
  have hevs : evsA = [.ActivateTopology (.activateDone topo1Request)] := by
    rw [hA] at ha
    exact (Option.some.inj ha).symm
  subst hevs
  exact ⟨_, _, ha, hd, rfl, hreject (by decide)⟩

/-- C16: a handler never sends a 200 reply itself; when the trace of one
request holds a 200 reply, the outcome is OK, the four preconditions held
when the handler ran, the handler did nothing but call the transition
method of the master, and the 200 reply is the one the continuation of
that call sends, after the call. -/
theorem C16_success_only_after_dispatch (ep : Endpoint) (request : IncomingHTTPRequest)
    (outcome : StatusCode) (w later : World) :
    (∃ evs, actions (ep.handler request) w = some evs ∧
      ∀ r ∈ replies evs, r.status ≠ 200) ∧
    ∃ tr, requestTrace ep request outcome w later = some tr ∧
      ((∃ r ∈ replies tr, r.status = 200) →
        outcome = .OK ∧
        ep.preconditions (request.GetValue "topologyid") w.topology ∧
        actions (ep.handler request) w = some [ep.dispatch request] ∧
        ∃ cb, (ep.dispatch request).continuation = some cb ∧
          actions (cb.call outcome) later =
            some [.SendReply request 200 ⟨request, cb.confirmation⟩, .Delete request] ∧
          tr = [ep.dispatch request, .SendReply request 200 ⟨request, cb.confirmation⟩,
            .Delete request]) := by
  cases hv : verdict ep (request.GetValue "topologyid") w.topology with
  | some code =>
    have hcode := verdict_status _ _ _ _ hv
    have hno : ∀ r ∈ replies [Event.SendErrorReply request code, Event.Delete request],
        r.status ≠ 200 := by
      intro r hr
      have : r = ⟨code, none⟩ := by simpa [replies, Event.reply] using hr
      subst this
      rcases hcode with h | h <;> simp [h]
    refine ⟨⟨_, handler_actions_rejected ep request w code hv, hno⟩,
      _, requestTrace_rejected ep request outcome w later code hv, ?_⟩
    rintro ⟨r, hr, h200⟩
    exact absurd h200 (hno r hr)
  | none =>
    have hnone : replies [ep.dispatch request] = [] := by cases ep <;> rfl
    refine ⟨⟨_, handler_actions_dispatched ep request w hv, ?_⟩,
      _, requestTrace_dispatched ep request outcome w later hv, ?_⟩
    · intro r hr
      rw [hnone] at hr
      cases hr
    · rintro ⟨r, hr, h200⟩
      have hok : outcome = .OK := by
        by_contra hne
        cases ep <;>
        simp [replies, Event.reply, Endpoint.dispatch, completion, hne] at hr <;>
        simp [hr] at h200
      subst hok
      refine ⟨rfl, (verdict_eq_none_iff _ _ _).mp hv,
        handler_actions_dispatched ep request w hv, ?_⟩
      cases ep
      · exact ⟨.activateDone request, rfl, by rw [call_actions]; rfl, rfl⟩
      · exact ⟨.deactivateDone request, rfl, by rw [call_actions]; rfl, rfl⟩

theorem C16_success_only_after_dispatch_witness :
    ∃ tr, requestTrace .activate topo1Request .OK (topo1World .PAUSED)
        (topo1World .RUNNING) = some tr ∧
      (∃ r ∈ replies tr, r.status = 200) ∧
      Endpoint.activate.preconditions (topo1Request.GetValue "topologyid")
        (topo1World .PAUSED).topology ∧
      tr = [.ActivateTopology (.activateDone topo1Request),
        .SendReply topo1Request 200 ⟨topo1Request, "Topology successfully activated"⟩,
        .Delete topo1Request] := by
  obtain ⟨_, tr, htr, himp⟩ :=
    C16_success_only_after_dispatch .activate topo1Request .OK (topo1World .PAUSED)
      (topo1World .RUNNING)
  have hconcrete : requestTrace .activate topo1Request .OK (topo1World .PAUSED)
      (topo1World .RUNNING) =
      some [.ActivateTopology (.activateDone topo1Request),
        .SendReply topo1Request 200 ⟨topo1Request, "Topology successfully activated"⟩,
        .Delete topo1Request] :=
    requestTrace_dispatched .activate topo1Request .OK (topo1World .PAUSED)
      (topo1World .RUNNING) (by decide)
  have heq : tr = _ := (Option.some.inj (htr.symm.trans hconcrete))
  subst heq
  have h200 : ∃ r ∈ replies [Event.ActivateTopology (.activateDone topo1Request),
      .SendReply topo1Request 200 ⟨topo1Request, "Topology successfully activated"⟩,
      .Delete topo1Request], r.status = 200 :=
    ⟨⟨200, some "Topology successfully activated"⟩, by simp [replies, Event.reply], rfl⟩
  exact ⟨_, htr, h200, (himp h200).2.1, rfl⟩

/-- C17: the outcome of a request does not depend on the peer.  For two
requests to the same handler with the same `topologyid`, the same world
and the same outcome, whatever their remote hosts and ports, the handler
and the whole request send the same replies (status and body) and call
the same transition methods of the master. -/
theorem C17_peer_independent (ep : Endpoint) (r1 r2 : IncomingHTTPRequest)
    (outcome : StatusCode) (w later : World)
    (hid : r1.GetValue "topologyid" = r2.GetValue "topologyid") :
    ∃ evs1 evs2 tr1 tr2,
      actions (ep.handler r1) w = some evs1 ∧ actions (ep.handler r2) w = some evs2 ∧
      requestTrace ep r1 outcome w later = some tr1 ∧
      requestTrace ep r2 outcome w later = some tr2 ∧
      replies evs1 = replies evs2 ∧ transitions evs1 = transitions evs2 ∧
      replies tr1 = replies tr2 ∧ transitions tr1 = transitions tr2 := by
  cases hv : verdict ep (r1.GetValue "topologyid") w.topology with
  | some code =>
    have hv2 := hv
    rw [hid] at hv2
    exact ⟨_, _, _, _, handler_actions_rejected ep r1 w code hv,
      handler_actions_rejected ep r2 w code hv2,
      requestTrace_rejected ep r1 outcome w later code hv,
      requestTrace_rejected ep r2 outcome w later code hv2, rfl, rfl, rfl, rfl⟩
  | none =>
    have hv2 := hv
    rw [hid] at hv2
    refine ⟨_, _, _, _, handler_actions_dispatched ep r1 w hv,
      handler_actions_dispatched ep r2 w hv2,
      requestTrace_dispatched ep r1 outcome w later hv,
      requestTrace_dispatched ep r2 outcome w later hv2, ?_, ?_, ?_, ?_⟩
    · cases ep <;> rfl
    · cases ep <;> rfl
    · cases ep <;> by_cases h : outcome = .OK <;>
      simp [replies, Event.reply, Endpoint.dispatch, completion, h,
        Continuation.confirmation]
    · cases ep <;> by_cases h : outcome = .OK <;>
      simp [transitions, Event.transition, Endpoint.dispatch, completion, h]

theorem C17_peer_independent_witness :
    topo1Request.GetValue "topologyid" = topo1RequestElsewhere.GetValue "topologyid" ∧
    topo1Request.remoteHost ≠ topo1RequestElsewhere.remoteHost ∧
    topo1Request.remotePort ≠ topo1RequestElsewhere.remotePort ∧
    ∃ evs1 evs2 tr1 tr2,
      actions (Endpoint.activate.handler topo1Request) (topo1World .PAUSED) = some evs1 ∧
      actions (Endpoint.activate.handler topo1RequestElsewhere) (topo1World .PAUSED) =
        some evs2 ∧
      requestTrace .activate topo1Request .OK (topo1World .PAUSED) (topo1World .PAUSED) =
        some tr1 ∧
      requestTrace .activate topo1RequestElsewhere .OK (topo1World .PAUSED)
        (topo1World .PAUSED) = some tr2 ∧
      replies evs1 = replies evs2 ∧ transitions evs1 = transitions evs2 ∧
      replies tr1 = replies tr2 ∧ transitions tr1 = transitions tr2 :=
  ⟨by decide, by decide, by decide,
   C17_peer_independent .activate topo1Request topo1RequestElsewhere .OK
     (topo1World .PAUSED) (topo1World .PAUSED) (by decide)⟩

end TController
